import Mathlib

/-!
Verification of the IPMI sensor/SDR command handlers of `sensorcommands.cpp`
(intel-ipmi-oem). The C++ handlers are shallowly embedded as pure Lean
functions: D-Bus maps become association lists, machine integers become
`Nat`/`Int` with explicit `% 2^w` truncation where the C code truncates,
stateful globals become explicit state values threaded through the model,
and external collaborators (the D-Bus backend, the FRU/storage helpers,
`getSensorAttributes` / `scaleIPMIValueFromDouble` from the utility
headers) become function parameters or `Except`/`Option` inputs.
-/

set_option autoImplicit false
set_option linter.unusedVariables false

namespace IpmiModel

/-- IPMI completion codes used by `sensorcommands.cpp`.
`other` stands for any further code forwarded from a collaborator. -/
inductive CC where
  | ok
  | invalidReservationId
  | invalidFieldRequest
  | reqDataLenInvalid
  | responseError
  | unspecifiedError
  | other (n : Nat)
  deriving DecidableEq, Repr

/-- A D-Bus property value as used by the sensor handlers: a boolean
(alarm flags) or a numeric value (readings, thresholds, ranges).
Doubles are modelled as integers; no claim depends on fractional values. -/
inductive DbusVal where
  | num (x : Int)
  | boolean (b : Bool)
  deriving DecidableEq, Repr

/-- The `VariantToDoubleVisitor` view: numeric view of a property value. -/
def dbusToInt : DbusVal → Int
  | .num x => x
  | .boolean b => if b then 1 else 0

/-- Association-list lookup, modelling `map.find(key)`. -/
def alGet {α : Type} : List (String × α) → String → Option α
  | [], _ => none
  | (k', v') :: rest, k => if k' = k then some v' else alGet rest k

/-- Association-list update/insert, modelling `map[key] = value`. -/
def alSet {α : Type} : List (String × α) → String → α → List (String × α)
  | [], k, v => [(k, v)]
  | (k', v') :: rest, k, v =>
    if k' = k then (k, v) :: rest else (k', v') :: alSet rest k v

theorem alGet_alSet {α : Type} (m : List (String × α)) (k : String) (v : α) :
    alGet (alSet m k v) k = some v := by
  induction m with
  | nil => simp [alGet, alSet]
  | cons hd tl ih =>
    obtain ⟨k', v'⟩ := hd
    by_cases h : k' = k <;> simp [alGet, alSet, h, ih]

/-- A property map: one D-Bus interface's `{property: value}` map. -/
abbrev PropMap := List (String × DbusVal)

/-- A sensor map: the interface-to-property-map tree for one object path. -/
abbrev SensorMap := List (String × PropMap)

def valueInterface : String := "xyz.openbmc_project.Sensor.Value"
def warningInterface : String := "xyz.openbmc_project.Sensor.Threshold.Warning"
def criticalInterface : String := "xyz.openbmc_project.Sensor.Threshold.Critical"

/-- Function `getSensorMaxMin` (sensorcommands.cpp:146-163): defaults `max = 127`,
`min = -128`, each overridden when the corresponding property exists. -/
def getSensorMaxMin (props : PropMap) : Int × Int :=
  let max : Int :=
    match alGet props "MaxValue" with
    | some v => dbusToInt v
    | none => 127
  let min : Int :=
    match alGet props "MinValue" with
    | some v => dbusToInt v
    | none => -128
  (max, min)

/-- The inline max/min lookup of the SDR assembler
(sensorcommands.cpp:1214-1226): defaults `max = 128`, `min = -127`. -/
def sdrAssemblerMaxMin (props : PropMap) : Int × Int :=
  let max : Int :=
    match alGet props "MaxValue" with
    | some v => dbusToInt v
    | none => 128
  let min : Int :=
    match alGet props "MinValue" with
    | some v => dbusToInt v
    | none => -127
  (max, min)

/-- The linearization parameters produced by the external
`getSensorAttributes` (sensorutils.hpp): 10-bit `mValue`/`bValue`,
4-bit exponents, raw-domain signedness. -/
structure SensorAttrs where
  mValue : Int
  bValue : Int
  rExp : Int
  bExp : Int
  bSigned : Bool
  deriving DecidableEq, Repr

/-- Low byte of a (possibly negative) C integer: `x & 0xFF`
under two's complement. -/
def byteOf (x : Int) : Nat := (x % 256).toNat

/-- Bit 8 of a C integer under two's complement: `(x & (1 << 8)) > 0`. -/
def bit8 (x : Int) : Bool := decide (256 ≤ x % 512)

/-- The exponent-packing sequence of the SDR assembler
(sensorcommands.cpp:1266-1275), statement for statement:
`r_b_exponents = bExp & 0x7;` then `|= 1 << 3` when `bExp < 0`; then the
byte is reassigned `r_b_exponents = (rExp & 0x7) << 4;` and `|= 1 << 7`
when `rExp < 0`.  The second assignment overwrites the first. -/
def packRBExponents (bExp rExp : Int) : Nat :=
  let v : Nat := (bExp % 8).toNat
  let v : Nat := if bExp < 0 then v ||| 8 else v
  let w : Nat := ((rExp % 8).toNat) <<< 4
  if rExp < 0 then w ||| 128 else w

/-- Handler `ipmiStorageReserveSDR` (sensorcommands.cpp:1062-1087): the handler
returns `(completion code, response bytes, new reservation counter)`.
The counter is a `uint16_t`, incremented and bumped past zero. -/
def ipmiStorageReserveSDR (dataLen sdrReservationID : Nat) :
    CC × List Nat × Nat :=
  if dataLen ≠ 0 then (.reqDataLenInvalid, [], sdrReservationID)
  else
    let s1 := (sdrReservationID + 1) % 65536
    let s2 := if s1 = 0 then (s1 + 1) % 65536 else s1
    (.ok, [s2 % 256, (s2 >>> 8) % 256], s2)

/-- The 16-bit reservation ID recovered from the two response bytes
(LSB first, as the handler stores them). -/
def recoveredID : List Nat → Nat
  | [a, b] => a + 256 * b
  | _ => 0

/-! ## Sensor map cache (`getSensorMap`, sensorcommands.cpp:165-220) -/

def sensorMapUpdatePeriod : Nat := 2

/-- The process-wide mutable state of `getSensorMap`: the per-connection
last-refresh time (`updateTimeMap`) and the per-connection managed-object
cache (`SensorCache`, a map path → SensorMap per connection). -/
structure MapCacheState where
  updateTimeMap : List (String × Nat)
  sensorCache : List (String × List (String × SensorMap))
  deriving Repr

/-- Lookup of `(connection, path)` in the cache, mirroring the tail of
`getSensorMap` (lines 207-219). -/
def cacheLookup (st : MapCacheState) (conn path : String) : Option SensorMap :=
  match alGet st.sensorCache conn with
  | none => none
  | some objects => alGet objects path

/-- Function `getSensorMap` (sensorcommands.cpp:165-220).  `now` is the current
steady-clock time in seconds; `managedObjRes` is the result of the
`GetManagedObjects` D-Bus round trip (`none` models the thrown
`sdbusplus::exception_t`).  Returns the looked-up sensor map (`none` for
the `return false` paths) and the new cache state.  Note the source
stores `updateTimeMap[conn] = now` *before* attempting the enumeration. -/
def getSensorMap (st : MapCacheState) (now : Nat)
    (managedObjRes : Option (List (String × SensorMap)))
    (sensorConnection sensorPath : String) :
    Option SensorMap × MapCacheState :=
  let lastUpdate := (alGet st.updateTimeMap sensorConnection).getD 0
  if sensorMapUpdatePeriod < now - lastUpdate then
    let st1 : MapCacheState :=
      { st with updateTimeMap := alSet st.updateTimeMap sensorConnection now }
    match managedObjRes with
    | none => (none, st1)
    | some objects =>
      let st2 : MapCacheState :=
        { st1 with sensorCache := alSet st1.sensorCache sensorConnection objects }
      (cacheLookup st2 sensorConnection sensorPath, st2)
  else (cacheLookup st sensorConnection sensorPath, st)

/-! ## Threshold deassertion latch (`thresholdChanged`,
sensorcommands.cpp:96-144) -/

/-- The payload value of one changed property: a boolean or a double. -/
inductive ThVal where
  | b (x : Bool)
  | d (x : Int)
  deriving DecidableEq, Repr

/-- The `thresholdDeassertMap` state: path → (alarm-property name → optional bool).
The inner `Option Bool` is the C++ `std::optional<bool>` latch value;
a key can be present in the map with an empty optional. -/
abbrev DeassertMap := List (String × List (String × Option Bool))

/-- Latch-map read: `some v` when the inner flat_map has an entry for
`(path, name)` (whose `std::optional<bool>` value is `v`), else `none`. -/
def dmGet (st : DeassertMap) (path name : String) : Option (Option Bool) :=
  match alGet st path with
  | none => none
  | some inner => alGet inner name

/-- Latch-map write `thresholdDeassertMap[path][name] = v`
(`operator[]` inserts missing levels). -/
def dmSet (st : DeassertMap) (path name : String) (v : Option Bool) :
    DeassertMap :=
  let inner := (alGet st path).getD []
  alSet st path (alSet inner name v)

/-- The observable latch value for `(path, name)`: the recorded
`std::optional<bool>`, with both "no map entry" and "entry holding an
empty optional" reading as `none` (this is exactly what
`ipmiSenGetSensorEventStatus` observes through `operator[]`). -/
def latchValue (st : DeassertMap) (path name : String) : Option Bool :=
  (dmGet st path name).getD none

/-- Whether a character list starts with the characters of `"Alarm"`. -/
def startsWithAlarm : List Char → Bool
  | 'A' :: 'l' :: 'a' :: 'r' :: 'm' :: _ => true
  | _ => false

def hasAlarmSub : List Char → Bool
  | [] => false
  | c :: rest => startsWithAlarm (c :: rest) || hasAlarmSub rest

/-- Whether `pair.first.find("Alarm") != std::string::npos`. -/
def containsAlarm (s : String) : Bool := hasAlarmSub s.toList

/-- The `thresholdChanged` match callback (sensorcommands.cpp:102-144).
`values` is the changed-properties payload; the first property whose
name contains `"Alarm"` is examined.  A non-bool payload is logged and
ignored.  `true` overwrites the latch unconditionally; `false` assigns
through `operator[]` (inserting an empty optional when absent) and only
stores `false` when the optional already held a value. -/
def thresholdChanged (st : DeassertMap) (path : String)
    (values : List (String × ThVal)) : DeassertMap :=
  match values.find? (fun pair => containsAlarm pair.1) with
  | none => st
  | some (_, .d _) => st
  | some (name, .b true) => dmSet st path name (some true)
  | some (name, .b false) =>
    match dmGet st path name with
    | some (some _) => dmSet st path name (some false)
    | some none => dmSet st path name none
    | none => dmSet st path name none

/-! ## Set Sensor Thresholds (`ipmiSenSetSensorThresholds`,
sensorcommands.cpp:399-563) -/

/-- Modelled from the spec: the `SensorThresholdReq` request layout
(declared in the repository's sensorcommands.hpp, which is not under
src/): sensor number, selection mask, then the six threshold bytes in
IPMI order. -/
structure SensorThresholdReq where
  sensorNum : Nat
  mask : Nat
  lowerNonCritical : Nat
  lowerCritical : Nat
  lowerNonRecoverable : Nat
  upperNonCritical : Nat
  upperCritical : Nat
  upperNonRecoverable : Nat
  deriving DecidableEq, Repr

/-- Modelled from the spec: the `SensorThresholdReqEnable` mask bits
(sensorcommands.hpp, not under src/), the standard IPMI
Set Sensor Threshold byte-2 bit assignment. -/
def setLowerNonCriticalBit : Nat := 0x01
def setLowerCriticalBit : Nat := 0x02
def setLowerNonRecoverableBit : Nat := 0x04
def setUpperNonCriticalBit : Nat := 0x08
def setUpperCriticalBit : Nat := 0x10
def setUpperNonRecoverableBit : Nat := 0x20

/-- Computes `10^e` for a signed exponent, as used by `std::pow(10, exp)` in the
threshold write-back computation. -/
def pow10 (e : Int) : ℚ :=
  if 0 ≤ e then (10 : ℚ) ^ e.toNat else ((10 : ℚ) ^ (-e).toNat)⁻¹

/-- One `setDbusProperty` write issued by the threshold handler. -/
structure ThresholdWrite where
  interface : String
  property : String
  value : ℚ
  deriving DecidableEq, Repr

/-- The scaled value `((mValue * raw) + (bValue * 10^bExp)) * 10^rExp`
(sensorcommands.cpp:554-556). -/
def thresholdWriteValue (a : SensorAttrs) (raw : Nat) : ℚ :=
  ((a.mValue * (raw : ℚ)) + (a.bValue * pow10 a.bExp)) * pow10 a.rExp

/-- The "verifiy all needed fields are present" section
(sensorcommands.cpp:484-549): collects `(property, raw value, interface)`
tuples for every selected threshold, failing with invalid-field as soon
as a needed interface or property is absent.  Order follows the source:
critical block (low then high), then warning block (low then high). -/
def collectThresholds (sensorMap : SensorMap) (req : SensorThresholdReq)
    (setLowerCritical setUpperCritical setLowerWarning setUpperWarning : Bool) :
    Except CC (List (String × Nat × String)) :=
  let critPart : Except CC (List (String × Nat × String)) :=
    if setLowerCritical || setUpperCritical then
      match alGet sensorMap criticalInterface with
      | none => .error .invalidFieldRequest
      | some pm =>
        let lowPart : Except CC (List (String × Nat × String)) :=
          if setLowerCritical then
            match alGet pm "CriticalLow" with
            | none => .error .invalidFieldRequest
            | some _ => .ok [("CriticalLow", req.lowerCritical, criticalInterface)]
          else .ok []
        match lowPart with
        | .error e => .error e
        | .ok acc =>
          if setUpperCritical then
            match alGet pm "CriticalHigh" with
            | none => .error .invalidFieldRequest
            | some _ =>
              .ok (acc ++ [("CriticalHigh", req.upperCritical, criticalInterface)])
          else .ok acc
    else .ok []
  match critPart with
  | .error e => .error e
  | .ok acc0 =>
    if setLowerWarning || setUpperWarning then
      match alGet sensorMap warningInterface with
      | none => .error .invalidFieldRequest
      | some pm =>
        let lowPart : Except CC (List (String × Nat × String)) :=
          if setLowerWarning then
            match alGet pm "WarningLow" with
            | none => .error .invalidFieldRequest
            | some _ =>
              .ok (acc0 ++ [("WarningLow", req.lowerNonCritical, warningInterface)])
          else .ok acc0
        match lowPart with
        | .error e => .error e
        | .ok acc =>
          if setUpperWarning then
            match alGet pm "WarningHigh" with
            | none => .error .invalidFieldRequest
            | some _ =>
              .ok (acc ++ [("WarningHigh", req.upperNonCritical, warningInterface)])
          else .ok acc
    else .ok acc0

/-- Handler `ipmiSenSetSensorThresholds` (sensorcommands.cpp:399-563).
External collaborators are inputs: `connRes` is the result of
`getSensorConnection`, `sensorMapRes` the result of `getSensorMap`
(`none` models its `false` return), `getAttrs` the external
`getSensorAttributes`.  The result is the completion code together with
the list of `setDbusProperty` writes performed. -/
def ipmiSenSetSensorThresholds (dataLen : Nat) (req : SensorThresholdReq)
    (connRes : Except CC Unit) (sensorMapRes : Option SensorMap)
    (getAttrs : Int → Int → Option SensorAttrs) : CC × List ThresholdWrite :=
  if dataLen ≠ 8 then (.reqDataLenInvalid, [])
  else if req.mask &&& 0xC0 ≠ 0 then (.invalidFieldRequest, [])
  else if req.mask &&& setLowerNonRecoverableBit ≠ 0 ∨
          req.mask &&& setUpperNonRecoverableBit ≠ 0 then
    (.invalidFieldRequest, [])
  else if req.mask = 0 then (.ok, [])
  else
    match connRes with
    | .error status => (status, [])
    | .ok _ =>
      match sensorMapRes with
      | none => (.responseError, [])
      | some sensorMap =>
        match alGet sensorMap valueInterface with
        | none => (.responseError, [])
        | some vprops =>
          let mm := getSensorMaxMin vprops
          match getAttrs mm.1 mm.2 with
          | none => (.responseError, [])
          | some a =>
            let lc := decide (req.mask &&& setLowerCriticalBit ≠ 0)
            let uc := decide (req.mask &&& setUpperCriticalBit ≠ 0)
            let lw := decide (req.mask &&& setLowerNonCriticalBit ≠ 0)
            let uw := decide (req.mask &&& setUpperNonCriticalBit ≠ 0)
            match collectThresholds sensorMap req lc uc lw uw with
            | .error e => (e, [])
            | .ok thresholdsToSet =>
              (.ok, thresholdsToSet.map (fun t =>
                { interface := t.2.2, property := t.1,
                  value := thresholdWriteValue a t.2.1 }))

/-- Whether the sensor map exposes `prop` on threshold interface
`iface`. -/
def hasThresholdProp (sensorMap : SensorMap) (iface prop : String) : Bool :=
  match alGet sensorMap iface with
  | none => false
  | some pm => (alGet pm prop).isSome

/-! ## Threshold readback (`getIPMIThresholds`, sensorcommands.cpp:565-646) -/

/-- The four optional raw threshold bytes. -/
structure IPMIThresholds where
  warningHigh : Option Nat := none
  warningLow : Option Nat := none
  criticalHigh : Option Nat := none
  criticalLow : Option Nat := none
  deriving DecidableEq, Repr

/-- Function `getIPMIThresholds` (sensorcommands.cpp:565-646).  `scale` is the
external `scaleIPMIValueFromDouble`.  The `.error` results model the
thrown `std::runtime_error`s (threshold interface without a value
interface; unrepresentable sensor attributes). -/
def getIPMIThresholds (getAttrs : Int → Int → Option SensorAttrs)
    (scale : Int → SensorAttrs → Nat) (sensorMap : SensorMap) :
    Except Unit IPMIThresholds :=
  let warn := alGet sensorMap warningInterface
  let crit := alGet sensorMap criticalInterface
  if warn.isSome || crit.isSome then
    match alGet sensorMap valueInterface with
    | none => .error ()
    | some vprops =>
      let mm := getSensorMaxMin vprops
      match getAttrs mm.1 mm.2 with
      | none => .error ()
      | some a =>
        let resp : IPMIThresholds := {}
        let resp :=
          match warn with
          | some wm =>
            let r1 :=
              match alGet wm "WarningHigh" with
              | some v => { resp with warningHigh := some (scale (dbusToInt v) a) }
              | none => resp
            match alGet wm "WarningLow" with
            | some v => { r1 with warningLow := some (scale (dbusToInt v) a) }
            | none => r1
          | none => resp
        let resp :=
          match crit with
          | some cm =>
            let r1 :=
              match alGet cm "CriticalHigh" with
              | some v => { resp with criticalHigh := some (scale (dbusToInt v) a) }
              | none => resp
            match alGet cm "CriticalLow" with
            | some v => { r1 with criticalLow := some (scale (dbusToInt v) a) }
            | none => r1
          | none => resp
        .ok resp
  else .ok {}

/-! ## SDR record assembly and the Get SDR handler
(`ipmiStorageGetSDR`, sensorcommands.cpp:1089-1364) -/

/-- Modelled from the spec: `ipmiSdrVersion` (sdrutils.hpp, not under
src/), the SDR format version byte. -/
def ipmiSdrVersion : Nat := 0x51

/-- Modelled from the spec: the fixed-layout type-01 full sensor record
(`get_sdr::SensorDataFullRecord`, declared outside src/): a 5-byte
header, 3 key bytes and a 56-byte body whose name field
(`FULL_RECORD_ID_STR_MAX_LENGTH`) is 16 characters — 64 bytes in all,
consistent with src's `maxSDRTotalSize = 76` being "Largest SDR Record
Size (type 01) + SDR Overheader Size". -/
def fullRecordSize : Nat := 64

/-- Modelled from the spec: the fixed-layout FRU locator record
(`get_sdr::SensorDataFruRecord`, declared outside src/): 5-byte header,
4 key bytes, 23-byte body — 32 bytes. -/
def fruRecordSize : Nat := 32

def fullRecordHeaderSize : Nat := 5

/-- Modelled from the spec: `FULL_RECORD_ID_STR_MAX_LENGTH`
(sdrutils.hpp, not under src/): the fixed name-field width. -/
def fullRecordIdStrMaxLength : Nat := 16

/-- The `sensorUnits` table (sensorcommands.cpp:64-69); the
`SensorUnits` enumerator values live in sensorcommands.hpp (not under
src/) and are the standard IPMI unit codes. -/
def sensorUnitsLookup (typeStr : String) : Option Nat :=
  alGet [("temperature", 1), ("voltage", 4), ("current", 5),
         ("fan_tach", 18), ("power", 6)] typeStr

/-- Modelled from the spec: the `IPMISensorEventEnableThresholds`
constants (sensorcommands.hpp, not under src/) used for the
supported-assertion/deassertion bytes. -/
def lowerNonCriticalGoingLowBit : Nat := 0x01
def lowerCriticalGoingLowBit : Nat := 0x04
def upperNonCriticalGoingHighBit : Nat := 0x80
def upperCriticalGoingHighMsbBit : Nat := 0x02

/-- Modelled from the spec: the `IPMISensorReadingByte3` constants
(sensorcommands.hpp, not under src/). -/
def lowerNonCriticalReadableBit : Nat := 0x01
def lowerCriticalReadableBit : Nat := 0x02
def upperNonCriticalReadableBit : Nat := 0x08
def upperCriticalReadableBit : Nat := 0x10

/-- Modelled from the spec: the fields of
`get_sdr::SensorDataFullRecord` in their fixed on-wire order; all bytes
zero-initialized as by `record = {0}`. -/
structure SensorDataFullRecord where
  record_id_lsb : Nat := 0
  record_id_msb : Nat := 0
  sdr_version : Nat := 0
  record_type : Nat := 0
  record_length : Nat := 0
  owner_id : Nat := 0
  owner_lun : Nat := 0
  sensor_number : Nat := 0
  entity_id : Nat := 0
  entity_instance : Nat := 0
  sensor_setup : Nat := 0
  sensor_capabilities : Nat := 0
  sensor_type : Nat := 0
  event_reading_type : Nat := 0
  supported_assertions_0 : Nat := 0
  supported_assertions_1 : Nat := 0
  supported_deassertions_0 : Nat := 0
  supported_deassertions_1 : Nat := 0
  discrete_reading_setting_mask_0 : Nat := 0
  discrete_reading_setting_mask_1 : Nat := 0
  sensor_units_1 : Nat := 0
  sensor_units_2_base : Nat := 0
  sensor_units_3_modifier : Nat := 0
  linearization : Nat := 0
  m_lsb : Nat := 0
  m_msb_and_tolerance : Nat := 0
  b_lsb : Nat := 0
  b_msb_and_accuracy_lsb : Nat := 0
  accuracy_and_sensitivity : Nat := 0
  r_b_exponents : Nat := 0
  analog_characteristic_flags : Nat := 0
  nominal_reading : Nat := 0
  normal_max : Nat := 0
  normal_min : Nat := 0
  sensor_max : Nat := 0
  sensor_min : Nat := 0
  upper_nonrecoverable_threshold : Nat := 0
  upper_critical_threshold : Nat := 0
  upper_noncritical_threshold : Nat := 0
  lower_nonrecoverable_threshold : Nat := 0
  lower_critical_threshold : Nat := 0
  lower_noncritical_threshold : Nat := 0
  positive_threshold_hysteresis : Nat := 0
  negative_threshold_hysteresis : Nat := 0
  reserved_0 : Nat := 0
  reserved_1 : Nat := 0
  oem_reserved : Nat := 0
  id_string_info : Nat := 0
  id_string : List Nat := List.replicate 16 0
  deriving DecidableEq, Repr

/-- The raw bytes of a full record in declaration order (the byte image
the handler windows into). -/
def serializeFullRecord (r : SensorDataFullRecord) : List Nat :=
  [r.record_id_lsb, r.record_id_msb, r.sdr_version, r.record_type,
   r.record_length, r.owner_id, r.owner_lun, r.sensor_number,
   r.entity_id, r.entity_instance, r.sensor_setup, r.sensor_capabilities,
   r.sensor_type, r.event_reading_type,
   r.supported_assertions_0, r.supported_assertions_1,
   r.supported_deassertions_0, r.supported_deassertions_1,
   r.discrete_reading_setting_mask_0, r.discrete_reading_setting_mask_1,
   r.sensor_units_1, r.sensor_units_2_base, r.sensor_units_3_modifier,
   r.linearization, r.m_lsb, r.m_msb_and_tolerance, r.b_lsb,
   r.b_msb_and_accuracy_lsb, r.accuracy_and_sensitivity, r.r_b_exponents,
   r.analog_characteristic_flags, r.nominal_reading, r.normal_max,
   r.normal_min, r.sensor_max, r.sensor_min,
   r.upper_nonrecoverable_threshold, r.upper_critical_threshold,
   r.upper_noncritical_threshold, r.lower_nonrecoverable_threshold,
   r.lower_critical_threshold, r.lower_noncritical_threshold,
   r.positive_threshold_hysteresis, r.negative_threshold_hysteresis,
   r.reserved_0, r.reserved_1, r.oem_reserved, r.id_string_info] ++
  (r.id_string ++ List.replicate 16 0).take 16

/-- The characters after the last `/` of the path, or `none` when the
path holds no `/` (`path.rfind("/") == npos`). -/
def afterLastSlash : List Char → Option (List Char)
  | [] => none
  | c :: rest =>
    match afterLastSlash rest with
    | some s => some s
    | none => if c = '/' then some rest else none

/-- The display-name computation (sensorcommands.cpp:1284-1295):
last path segment, underscores replaced by spaces, truncated to the
name-field width. -/
def recordName (path : String) : List Char :=
  let name :=
    match afterLastSlash path.toList with
    | some s => s
    | none => []
  let name := name.map (fun c => if c = '_' then ' ' else c)
  if fullRecordIdStrMaxLength < name.length then
    name.take fullRecordIdStrMaxLength
  else name

/-- The full-record construction for a live sensor
(sensorcommands.cpp:1180-1353), given the record id, path, the
path-derived type bytes, the units key string, the linearization
attributes and the threshold data. -/
def buildFullRecord (recID : Nat) (path : String)
    (sensorType eventType : Nat) (typeStr : String)
    (a : SensorAttrs) (th : IPMIThresholds) : SensorDataFullRecord :=
  let name := recordName path
  let mMsb : Nat :=
    (if bit8 a.mValue then 64 else 0) |||
    (if a.mValue < 0 then 128 else 0)
  let bMsb : Nat :=
    (if bit8 a.bValue then 64 else 0) |||
    (if a.bValue < 0 then 128 else 0)
  let r : SensorDataFullRecord :=
    { record_id_msb := (recID <<< 8) % 256
      record_id_lsb := recID % 256
      sdr_version := ipmiSdrVersion
      record_type := 0x01
      record_length := fullRecordSize - fullRecordHeaderSize
      owner_id := 0x20
      owner_lun := 0x0
      sensor_number := recID % 256
      entity_id := 0x0
      entity_instance := 0x01
      sensor_capabilities := 0x68
      sensor_type := sensorType
      sensor_units_2_base := (sensorUnitsLookup typeStr).getD 0
      event_reading_type := eventType
      m_lsb := byteOf a.mValue
      m_msb_and_tolerance := mMsb
      b_lsb := byteOf a.bValue
      b_msb_and_accuracy_lsb := bMsb
      r_b_exponents := packRBExponents a.bExp a.rExp
      sensor_units_1 := if a.bSigned then 128 else 0
      id_string_info := name.length
      id_string := ((name.map Char.toNat) ++ List.replicate 16 0).take 16 }
  let r :=
    match th.criticalHigh with
    | some v =>
      { r with upper_critical_threshold := v
               supported_deassertions_1 :=
                 r.supported_deassertions_1 ||| upperCriticalGoingHighMsbBit
               supported_assertions_1 :=
                 r.supported_assertions_1 ||| upperCriticalGoingHighMsbBit
               discrete_reading_setting_mask_0 :=
                 r.discrete_reading_setting_mask_0 ||| upperCriticalReadableBit }
    | none => r
  let r :=
    match th.warningHigh with
    | some v =>
      { r with upper_noncritical_threshold := v
               supported_deassertions_0 :=
                 r.supported_deassertions_0 ||| upperNonCriticalGoingHighBit
               supported_assertions_0 :=
                 r.supported_assertions_0 ||| upperNonCriticalGoingHighBit
               discrete_reading_setting_mask_0 :=
                 r.discrete_reading_setting_mask_0 ||| upperNonCriticalReadableBit }
    | none => r
  let r :=
    match th.criticalLow with
    | some v =>
      { r with lower_critical_threshold := v
               supported_deassertions_0 :=
                 r.supported_deassertions_0 ||| lowerCriticalGoingLowBit
               supported_assertions_0 :=
                 r.supported_assertions_0 ||| lowerCriticalGoingLowBit
               discrete_reading_setting_mask_0 :=
                 r.discrete_reading_setting_mask_0 ||| lowerCriticalReadableBit }
    | none => r
  let r :=
    match th.warningLow with
    | some v =>
      { r with lower_noncritical_threshold := v
               supported_deassertions_0 :=
                 r.supported_deassertions_0 ||| lowerNonCriticalGoingLowBit
               supported_assertions_0 :=
                 r.supported_assertions_0 ||| lowerNonCriticalGoingLowBit
               discrete_reading_setting_mask_0 :=
                 r.discrete_reading_setting_mask_0 ||| lowerNonCriticalReadableBit }
    | none => r
  { r with discrete_reading_setting_mask_1 := r.discrete_reading_setting_mask_0 }

/-- The value `lastRecord = sensorTree.size() + fruCount - 1` computed in
`size_t` arithmetic (wraps when both counts are zero). -/
def lastRecordOf (sensorCount fruCount : Nat) : Nat :=
  (sensorCount + fruCount + (2 ^ 64 - 1)) % 2 ^ 64

/-- The byte-window clamping shared by both record paths
(sensorcommands.cpp:1147-1149 and 1355-1358):
`if (recSize < offset + bytesToRead) bytesToRead = recSize - offset;`
where the subtraction is `size_t` arithmetic truncated to the `uint8_t`
`bytesToRead`. -/
def clampedBytesToRead (recSize offset bytesToRead : Nat) : Nat :=
  if recSize < offset + bytesToRead then
    ((((recSize : Int) - (offset : Int)) % (2 ^ 64)).toNat) % 256
  else bytesToRead

/-- The external collaborators and process state consulted by
`ipmiStorageGetSDR`. -/
structure SdrEnv where
  /-- the `sdrReservationID` global -/
  sdrReservationID : Nat
  /-- the `sensorTree` global: path → connection names, in order -/
  sensorTree : List (String × List String)
  /-- result of `getSensorSubtree` when the tree is empty
  (`none` models its `false` return) -/
  refetchTree : Option (List (String × List String))
  /-- result of `ipmi::storage::getFruSdrCount` -/
  fruCountRes : Except CC Nat
  /-- result of `ipmi::storage::getFruSdrs` per FRU index -/
  fruData : Nat → Except CC (List Nat)
  /-- result of `getSensorMap` for a (connection, path) -/
  sensorMapOf : String → String → Option SensorMap
  /-- the external `getSensorAttributes` -/
  getAttrs : Int → Int → Option SensorAttrs
  /-- the external `scaleIPMIValueFromDouble` -/
  scale : Int → SensorAttrs → Nat
  /-- the external `getSensorTypeFromPath` -/
  sensorTypeOf : String → Nat
  /-- the external `getSensorEventTypeFromPath` -/
  eventTypeOf : String → Nat
  /-- the external `getSensorTypeStringFromPath` -/
  typeStringOf : String → String

/-- The record-serving part of `ipmiStorageGetSDR`
(sensorcommands.cpp:1128-1363), after the reservation gate, sentinel
substitution and range check: the FRU path or the live-sensor path, for
an already-resolved `recID` and precomputed `nextRecordId`. -/
def getSDRBody (env : SdrEnv) (tree : List (String × List String))
    (fruCount recID nextRecordId offset bytesToRead : Nat) :
    CC × Option (Nat × List Nat) :=
  if tree.length ≤ recID then
    let fruIndex := recID - tree.length
    if fruCount ≤ fruIndex then (.invalidFieldRequest, none)
    else if fruRecordSize < offset then (.invalidFieldRequest, none)
    else
      match env.fruData fruIndex with
      | .error status => (status, none)
      | .ok raw =>
        let raw := (raw ++ List.replicate fruRecordSize 0).take fruRecordSize
        let withHeader :=
          (raw.set 1 ((recID <<< 8) % 256)).set 0 (recID % 256)
        let btr := clampedBytesToRead fruRecordSize offset bytesToRead
        (.ok, some (nextRecordId, (withHeader.drop offset).take btr))
  else
    match tree.get? recID with
    | none => (.responseError, none)
    | some sensor =>
      if sensor.2.isEmpty then (.responseError, none)
      else
        let connection := (sensor.2.head?).getD ""
        let path := sensor.1
        match env.sensorMapOf connection path with
        | none => (.responseError, none)
        | some sensorMap =>
          match alGet sensorMap valueInterface with
          | none => (.responseError, none)
          | some vprops =>
            let mm := sdrAssemblerMaxMin vprops
            match env.getAttrs mm.1 mm.2 with
            | none => (.responseError, none)
            | some a =>
              match getIPMIThresholds env.getAttrs env.scale sensorMap with
              | .error _ => (.responseError, none)
              | .ok th =>
                let record := buildFullRecord recID path
                  (env.sensorTypeOf path) (env.eventTypeOf path)
                  (env.typeStringOf path) a th
                let recordBytes := serializeFullRecord record
                let btr := clampedBytesToRead fullRecordSize offset bytesToRead
                (.ok, some (nextRecordId, (recordBytes.drop offset).take btr))

/-- The record-id resolution of `ipmiStorageGetSDR`
(sensorcommands.cpp:1116-1126): sentinel `0xFFFF` substitution (with the
`uint16_t` truncation of the `recordID = lastRecord` assignment), range
check and successor-id computation, then the record paths. -/
def getSDRResolved (env : SdrEnv) (tree : List (String × List String))
    (fruCount recordID offset bytesToRead : Nat) :
    CC × Option (Nat × List Nat) :=
  let lastRecord := lastRecordOf tree.length fruCount
  let recID := if recordID = 0xFFFF then lastRecord % 65536 else recordID
  if lastRecord < recID then (.invalidFieldRequest, none)
  else
    let nextRecordId :=
      if recID < lastRecord then (recID + 1) % 65536 else 0xFFFF
    getSDRBody env tree fruCount recID nextRecordId offset bytesToRead

/-- Handler `ipmiStorageGetSDR` (sensorcommands.cpp:1089-1364): reservation gate
for non-zero offsets, sensor-tree refetch, FRU count, then the resolved
record paths. -/
def ipmiStorageGetSDR (env : SdrEnv)
    (reservationID recordID offset bytesToRead : Nat) :
    CC × Option (Nat × List Nat) :=
  if (env.sdrReservationID = 0 ∨ reservationID ≠ env.sdrReservationID) ∧
     offset ≠ 0 then
    (.invalidReservationId, none)
  else
    match (if env.sensorTree.isEmpty then env.refetchTree else some env.sensorTree) with
    | none => (.responseError, none)
    | some tree =>
      match env.fruCountRes with
      | .error status => (status, none)
      | .ok fruCount =>
        getSDRResolved env tree fruCount recordID offset bytesToRead

/-- A concrete one-sensor environment with an active reservation 5,
used to exercise the reservation gate. -/
def c2Env : SdrEnv where
  sdrReservationID := 5
  sensorTree := [("/xyz/openbmc_project/sensors/temperature/t", ["svc"])]
  refetchTree := none
  fruCountRes := .ok 0
  fruData := fun _ => .ok []
  sensorMapOf := fun _ _ => some [(valueInterface, [])]
  getAttrs := fun _ _ => some ⟨1, 0, 0, 0, false⟩
  scale := fun _ _ => 0
  sensorTypeOf := fun _ => 1
  eventTypeOf := fun _ => 1
  typeStringOf := fun _ => "temperature"

/-- A concrete one-sensor environment with an active reservation 1,
used to exercise the full-record byte window at a large offset. -/
def c6Env : SdrEnv where
  sdrReservationID := 1
  sensorTree := [("/xyz/openbmc_project/sensors/temperature/t", ["svc"])]
  refetchTree := none
  fruCountRes := .ok 0
  fruData := fun _ => .ok []
  sensorMapOf := fun _ _ => some [(valueInterface, [])]
  getAttrs := fun _ _ => some ⟨1, 0, 0, 0, false⟩
  scale := fun _ _ => 0
  sensorTypeOf := fun _ => 1
  eventTypeOf := fun _ => 1
  typeStringOf := fun _ => "temperature"

/-- A concrete environment with one live sensor and one FRU record,
used to exercise the sentinel record id. -/
def c7Env : SdrEnv where
  sdrReservationID := 0
  sensorTree := [("/xyz/openbmc_project/sensors/temperature/t", ["svc"])]
  refetchTree := none
  fruCountRes := .ok 1
  fruData := fun _ => .ok (List.replicate 32 7)
  sensorMapOf := fun _ _ => some [(valueInterface, [])]
  getAttrs := fun _ _ => some ⟨1, 0, 0, 0, false⟩
  scale := fun _ _ => 0
  sensorTypeOf := fun _ => 1
  eventTypeOf := fun _ => 1
  typeStringOf := fun _ => "temperature"

/-! ## Helper lemmas -/

theorem pow64 : (2 : Nat) ^ 64 = 18446744073709551616 := by norm_num

/-- The `size_t` last-record arithmetic for a non-empty record space. -/
theorem lastRecordOf_pos (n f : Nat) (h0 : 0 < n + f)
    (h1 : n + f - 1 < 2 ^ 64) : lastRecordOf n f = n + f - 1 := by
  unfold lastRecordOf
  rw [show n + f + (2 ^ 64 - 1) = (n + f - 1) + 1 * 2 ^ 64 by
      rw [pow64] at h1 ⊢; omega,
    Nat.add_mul_mod_self_right, Nat.mod_eq_of_lt h1]

/-- Every successful `getSDRBody` result carries the `nextRecordId` it
was given. -/
theorem getSDRBody_next (env : SdrEnv) (tree : List (String × List String))
    (fruCount recID nextRecordId offset bytesToRead nid : Nat)
    (pl : List Nat)
    (h : (getSDRBody env tree fruCount recID nextRecordId offset
        bytesToRead).2 = some (nid, pl)) : nid = nextRecordId := by
  unfold getSDRBody at h
  simp only [] at h
  repeat' split at h
  all_goals simp_all

/-- Function `getSDRBody` never produces the invalid-reservation completion code
when the FRU collaborator does not. -/
theorem getSDRBody_cc (env : SdrEnv) (tree : List (String × List String))
    (fruCount recID nextRecordId offset bytesToRead : Nat)
    (hfru : ∀ i, env.fruData i ≠ Except.error CC.invalidReservationId) :
    (getSDRBody env tree fruCount recID nextRecordId offset
      bytesToRead).1 ≠ CC.invalidReservationId := by
  unfold getSDRBody
  simp only []
  repeat' split
  all_goals simp_all
  all_goals (intro hc; subst hc; exact hfru _ (by assumption))

/-- Handler `ipmiStorageGetSDR` reduces to the resolved record paths once the
reservation gate passes, the sensor tree is non-empty and the FRU count
is available. -/
theorem getSDR_eq_resolved (env : SdrEnv) (fc : Nat)
    (reservationID recordID offset bytesToRead : Nat)
    (htree : env.sensorTree.isEmpty = false)
    (hfru : env.fruCountRes = .ok fc)
    (hguard : ¬ ((env.sdrReservationID = 0 ∨
        reservationID ≠ env.sdrReservationID) ∧ offset ≠ 0)) :
    ipmiStorageGetSDR env reservationID recordID offset bytesToRead =
      getSDRResolved env env.sensorTree fc recordID offset bytesToRead := by
  unfold ipmiStorageGetSDR
  rw [if_neg hguard, htree, hfru]
  rfl

theorem dmGet_dmSet (st : DeassertMap) (path name : String) (v : Option Bool) :
    dmGet (dmSet st path name v) path name = some v := by
  unfold dmGet dmSet
  rw [alGet_alSet]
  exact alGet_alSet _ _ _

theorem latchValue_dmSet (st : DeassertMap) (path name : String)
    (v : Option Bool) : latchValue (dmSet st path name v) path name = v := by
  unfold latchValue
  rw [dmGet_dmSet]
  rfl

/-! ## Claim theorems -/

/-- Claim C1: in every live-sensor full SDR record, the first assignment
of `r_b_exponents` from `bExp` is dead: the final byte is independent of
`bExp`, equals `(rExp & 0x7) << 4` plus the sign bit, and its bit 7 is
set exactly when `rExp < 0`. -/
theorem c1_r_b_exponents_bexp_never_encoded (bExp bExp' rExp : Int) :
    packRBExponents bExp rExp = packRBExponents bExp' rExp ∧
    packRBExponents bExp rExp =
      16 * (rExp % 8).toNat + (if rExp < 0 then 128 else 0) ∧
    Nat.testBit (packRBExponents bExp rExp) 7 = decide (rExp < 0) := by
  have h0 : (0 : Int) ≤ rExp % 8 := Int.emod_nonneg _ (by norm_num)
  have h1 : rExp % 8 < 8 := Int.emod_lt_of_pos _ (by norm_num)
  have he : (rExp % 8).toNat < 8 := by omega
  have hform : ∀ b : Int, packRBExponents b rExp =
      16 * (rExp % 8).toNat + (if rExp < 0 then 128 else 0) := by
    intro b
    show (if rExp < 0 then ((rExp % 8).toNat <<< 4) ||| 128
          else (rExp % 8).toNat <<< 4) =
      16 * (rExp % 8).toNat + (if rExp < 0 then 128 else 0)
    generalize (rExp % 8).toNat = e at he ⊢
    split_ifs with hr <;> (interval_cases e <;> decide)
  refine ⟨(hform bExp).trans (hform bExp').symm, hform bExp, ?_⟩
  rw [hform bExp]
  generalize (rExp % 8).toNat = e at he ⊢
  rcases Classical.em (rExp < 0) with hr | hr
  · rw [if_pos hr, decide_eq_true hr]
    interval_cases e <;> decide
  · rw [if_neg hr, decide_eq_false hr]
    interval_cases e <;> decide

/-- Claim C5 counterexample: after a refresh attempt whose enumeration
fails (connection `"conn"`, last refresh at 5, now 10, enumeration
result `none`), the stored per-connection timestamp has changed — it is
not the same as before the call, contradicting the claim. -/
theorem c5_counterexample :
    alGet ((getSensorMap ⟨[("conn", 5)], []⟩ 10 none "conn" "p").2).updateTimeMap
        "conn" ≠
      alGet (MapCacheState.mk [("conn", 5)] []).updateTimeMap "conn" := by
  decide

/-- Claim C5 (amended): `getSensorMap` updates the per-connection
last-refresh timestamp to the current time whenever a refresh attempt is
triggered (elapsed time exceeds the refresh period), before the
enumeration and regardless of whether the enumeration succeeds; when no
refresh is attempted the cache state is unchanged. -/
theorem c5_timestamp_updated_on_attempt (st : MapCacheState) (now : Nat)
    (enumRes : Option (List (String × SensorMap))) (conn path : String) :
    (sensorMapUpdatePeriod < now - (alGet st.updateTimeMap conn).getD 0 →
      alGet ((getSensorMap st now enumRes conn path).2).updateTimeMap conn =
        some now) ∧
    (¬ sensorMapUpdatePeriod < now - (alGet st.updateTimeMap conn).getD 0 →
      (getSensorMap st now enumRes conn path).2 = st) := by
  unfold getSensorMap
  constructor
  · intro h
    rw [if_pos h]
    cases enumRes <;> simp [alGet_alSet]
  · intro h
    rw [if_neg h]

/-- Claim C5 amended-theorem witness at a concrete state. -/
theorem c5_witness :
    alGet ((getSensorMap ⟨[("c", 0)], []⟩ 10 none "c" "p").2).updateTimeMap
        "c" = some 10 :=
  (c5_timestamp_updated_on_attempt ⟨[("c", 0)], []⟩ 10 none "c" "p").1
    (by decide)

/-- Claim C4: processing a threshold property-change notification whose
Alarm boolean is `true` unconditionally latches `asserted`; one whose
Alarm boolean is `false` turns the latch to `deasserted` only when a
latch value was previously recorded, and leaves the latch value absent
otherwise. -/
theorem c4_deassert_only_after_assert (st : DeassertMap) (path : String)
    (values : List (String × ThVal)) (name : String) (bval : Bool)
    (hfind : values.find? (fun pair => containsAlarm pair.1) =
      some (name, .b bval)) :
    (bval = true →
      latchValue (thresholdChanged st path values) path name = some true) ∧
    (bval = false →
      latchValue (thresholdChanged st path values) path name =
        (latchValue st path name).map (fun _ => false)) := by
  unfold thresholdChanged
  rw [hfind]
  cases bval with
  | true =>
    refine ⟨fun _ => ?_, fun h => Bool.noConfusion h⟩
    exact latchValue_dmSet _ _ _ _
  | false =>
    refine ⟨fun h => Bool.noConfusion h, fun _ => ?_⟩
    unfold latchValue
    rcases hdm : dmGet st path name with _ | ⟨_ | b⟩ <;>
      simp [hdm, dmGet_dmSet]

/-- Claim C4 witness: a deassertion for a never-asserted threshold
leaves the latch value absent. -/
theorem c4_witness :
    latchValue
        (thresholdChanged [] "p" [("CriticalAlarmHigh", ThVal.b false)])
        "p" "CriticalAlarmHigh" =
      (latchValue ([] : DeassertMap) "p" "CriticalAlarmHigh").map
        (fun _ => false) :=
  (c4_deassert_only_after_assert [] "p" [("CriticalAlarmHigh", ThVal.b false)]
    "CriticalAlarmHigh" false (by decide)).2 rfl

/-- Every failure of the `collectThresholds` validation pass is the
invalid-field completion code. -/
theorem collectThresholds_error_shape (m : SensorMap)
    (req : SensorThresholdReq) (lc uc lw uw : Bool) :
    (∃ l, collectThresholds m req lc uc lw uw = .ok l) ∨
      collectThresholds m req lc uc lw uw = .error .invalidFieldRequest := by
  unfold collectThresholds
  repeat' split
  all_goals first
    | exact Or.inr rfl
    | exact Or.inl ⟨_, rfl⟩

/-- When the validation pass succeeds, every selected threshold's
interface and property were present. -/
theorem collectThresholds_ok_props (m : SensorMap)
    (req : SensorThresholdReq) (lc uc lw uw : Bool)
    (l : List (String × Nat × String))
    (h : collectThresholds m req lc uc lw uw = .ok l) :
    (lc = true → hasThresholdProp m criticalInterface "CriticalLow" = true) ∧
    (uc = true → hasThresholdProp m criticalInterface "CriticalHigh" = true) ∧
    (lw = true → hasThresholdProp m warningInterface "WarningLow" = true) ∧
    (uw = true → hasThresholdProp m warningInterface "WarningHigh" = true) := by
  unfold collectThresholds at h
  repeat' split at h
  all_goals simp_all [hasThresholdProp]

/-- Claim C3: a `setThresholds` request selecting a threshold whose
backend interface or property is absent fails with invalid-field and
performs no backend property write: all selected thresholds are
validated before the first write. -/
theorem c3_no_partial_threshold_writes (req : SensorThresholdReq)
    (m : SensorMap) (getAttrs : Int → Int → Option SensorAttrs)
    (a : SensorAttrs) (vprops : PropMap)
    (hv : alGet m valueInterface = some vprops)
    (ha : getAttrs (getSensorMaxMin vprops).1 (getSensorMaxMin vprops).2 =
      some a)
    (hmiss :
      (req.mask &&& setLowerCriticalBit ≠ 0 ∧
        hasThresholdProp m criticalInterface "CriticalLow" = false) ∨
      (req.mask &&& setUpperCriticalBit ≠ 0 ∧
        hasThresholdProp m criticalInterface "CriticalHigh" = false) ∨
      (req.mask &&& setLowerNonCriticalBit ≠ 0 ∧
        hasThresholdProp m warningInterface "WarningLow" = false) ∨
      (req.mask &&& setUpperNonCriticalBit ≠ 0 ∧
        hasThresholdProp m warningInterface "WarningHigh" = false)) :
    ipmiSenSetSensorThresholds 8 req (.ok ()) (some m) getAttrs =
      (.invalidFieldRequest, []) := by
  unfold ipmiSenSetSensorThresholds
  rw [if_neg (by omega : ¬ (8 : Nat) ≠ 8)]
  by_cases hres : req.mask &&& 0xC0 ≠ 0
  · rw [if_pos hres]
  · rw [if_neg hres]
    by_cases hnr : req.mask &&& setLowerNonRecoverableBit ≠ 0 ∨
        req.mask &&& setUpperNonRecoverableBit ≠ 0
    · rw [if_pos hnr]
    · rw [if_neg hnr]
      have hmask : ¬ req.mask = 0 := by
        rcases hmiss with ⟨hbit, _⟩ | ⟨hbit, _⟩ | ⟨hbit, _⟩ | ⟨hbit, _⟩ <;>
          (intro h0; rw [h0] at hbit; simp at hbit)
      rw [if_neg hmask]
      simp only [hv, ha]
      rcases collectThresholds_error_shape m req
          (decide (req.mask &&& setLowerCriticalBit ≠ 0))
          (decide (req.mask &&& setUpperCriticalBit ≠ 0))
          (decide (req.mask &&& setLowerNonCriticalBit ≠ 0))
          (decide (req.mask &&& setUpperNonCriticalBit ≠ 0)) with
        ⟨l, hok⟩ | herr
      · exfalso
        have hprops := collectThresholds_ok_props _ _ _ _ _ _ _ hok
        rcases hmiss with ⟨hbit, habs⟩ | ⟨hbit, habs⟩ | ⟨hbit, habs⟩ |
          ⟨hbit, habs⟩
        · rw [hprops.1 (decide_eq_true hbit)] at habs; cases habs
        · rw [hprops.2.1 (decide_eq_true hbit)] at habs; cases habs
        · rw [hprops.2.2.1 (decide_eq_true hbit)] at habs; cases habs
        · rw [hprops.2.2.2 (decide_eq_true hbit)] at habs; cases habs
      · rw [herr]

/-- Claim C3 witness: mask selecting lower-critical on a sensor whose
critical interface lacks `CriticalLow`. -/
theorem c3_witness :
    ipmiSenSetSensorThresholds 8
        ⟨1, setLowerCriticalBit, 0, 0, 0, 0, 0, 0⟩ (.ok ())
        (some [(valueInterface, []), (criticalInterface, [])])
        (fun _ _ => some ⟨1, 0, 0, 0, false⟩) =
      (.invalidFieldRequest, []) :=
  c3_no_partial_threshold_writes ⟨1, setLowerCriticalBit, 0, 0, 0, 0, 0, 0⟩
    [(valueInterface, []), (criticalInterface, [])]
    (fun _ _ => some ⟨1, 0, 0, 0, false⟩) ⟨1, 0, 0, 0, false⟩ []
    (by decide) rfl (Or.inl ⟨by decide, by decide⟩)

/-- Claim C9: a correctly sized `setThresholds` request whose mask has a
reserved upper bit or a non-recoverable bit set is rejected with
invalid-field independently of every backend input (so before any
sensor lookup); an all-zero mask is a no-op success. -/
theorem c9_mask_validation (req : SensorThresholdReq)
    (connRes : Except CC Unit) (sensorMapRes : Option SensorMap)
    (getAttrs : Int → Int → Option SensorAttrs) :
    (req.mask &&& 0xC0 ≠ 0 ∨ req.mask &&& setLowerNonRecoverableBit ≠ 0 ∨
        req.mask &&& setUpperNonRecoverableBit ≠ 0 →
      ipmiSenSetSensorThresholds 8 req connRes sensorMapRes getAttrs =
        (.invalidFieldRequest, [])) ∧
    (req.mask = 0 →
      ipmiSenSetSensorThresholds 8 req connRes sensorMapRes getAttrs =
        (.ok, [])) := by
  constructor
  · intro h
    unfold ipmiSenSetSensorThresholds
    rw [if_neg (by omega : ¬ (8 : Nat) ≠ 8)]
    by_cases hres : req.mask &&& 0xC0 ≠ 0
    · rw [if_pos hres]
    · rw [if_neg hres]
      rcases h with h | h | h
      · exact absurd h hres
      · rw [if_pos (Or.inl h)]
      · rw [if_pos (Or.inr h)]
  · intro h
    unfold ipmiSenSetSensorThresholds
    rw [if_neg (by omega : ¬ (8 : Nat) ≠ 8)]
    rw [if_neg (by simp [h]), if_neg (by simp [h, setLowerNonRecoverableBit,
      setUpperNonRecoverableBit]), if_pos h]

/-- Claim C9 witness: a reserved-bit mask and an empty mask. -/
theorem c9_witness :
    ipmiSenSetSensorThresholds 8 ⟨1, 0x40, 0, 0, 0, 0, 0, 0⟩ (.ok ()) none
        (fun _ _ => none) = (.invalidFieldRequest, []) ∧
    ipmiSenSetSensorThresholds 8 ⟨1, 0, 0, 0, 0, 0, 0, 0⟩ (.ok ()) none
        (fun _ _ => none) = (.ok, []) :=
  ⟨(c9_mask_validation ⟨1, 0x40, 0, 0, 0, 0, 0, 0⟩ (.ok ()) none
      (fun _ _ => none)).1 (Or.inl (by decide)),
   (c9_mask_validation ⟨1, 0, 0, 0, 0, 0, 0, 0⟩ (.ok ()) none
      (fun _ _ => none)).2 rfl⟩

/-- Claim C8: `ipmiStorageReserveSDR` with an empty (correctly sized)
request always succeeds, never returns the reservation ID 0, and two
consecutive calls return different 16-bit IDs. -/
theorem c8_reserve_nonzero_distinct (s : Nat) (hs : s < 65536) :
    (ipmiStorageReserveSDR 0 s).1 = CC.ok ∧
    (ipmiStorageReserveSDR 0 (ipmiStorageReserveSDR 0 s).2.2).1 = CC.ok ∧
    recoveredID (ipmiStorageReserveSDR 0 s).2.1 ≠ 0 ∧
    recoveredID (ipmiStorageReserveSDR 0 (ipmiStorageReserveSDR 0 s).2.2).2.1 ≠
      0 ∧
    recoveredID (ipmiStorageReserveSDR 0 s).2.1 ≠
      recoveredID (ipmiStorageReserveSDR 0 (ipmiStorageReserveSDR 0 s).2.2).2.1 := by
  unfold ipmiStorageReserveSDR recoveredID
  simp only [ne_eq, if_neg (by omega : ¬ (0 : Nat) ≠ 0)]
  simp only [Nat.shiftRight_eq_div_pow]
  norm_num
  split_ifs <;> omega

/-- Claim C8 witness at counter 0. -/
theorem c8_witness :
    (ipmiStorageReserveSDR 0 0).1 = CC.ok ∧
    (ipmiStorageReserveSDR 0 (ipmiStorageReserveSDR 0 0).2.2).1 = CC.ok ∧
    recoveredID (ipmiStorageReserveSDR 0 0).2.1 ≠ 0 ∧
    recoveredID (ipmiStorageReserveSDR 0 (ipmiStorageReserveSDR 0 0).2.2).2.1 ≠
      0 ∧
    recoveredID (ipmiStorageReserveSDR 0 0).2.1 ≠
      recoveredID (ipmiStorageReserveSDR 0 (ipmiStorageReserveSDR 0 0).2.2).2.1 :=
  c8_reserve_nonzero_distinct 0 (by decide)

/-- Claim C10: with `MaxValue` and `MinValue` absent, the reading and
threshold path (`getSensorMaxMin`) uses `max = 127`, `min = -128`,
while the SDR assembler uses `max = 128`, `min = -127`; the two paths
hand different ranges to the shared parameter derivation. -/
theorem c10_default_range_mismatch (props : PropMap)
    (hmax : alGet props "MaxValue" = none)
    (hmin : alGet props "MinValue" = none) :
    getSensorMaxMin props = (127, -128) ∧
    sdrAssemblerMaxMin props = (128, -127) ∧
    getSensorMaxMin props ≠ sdrAssemblerMaxMin props := by
  refine ⟨?_, ?_, ?_⟩ <;> simp [getSensorMaxMin, sdrAssemblerMaxMin, hmax, hmin]

/-- Claim C10 witness: the empty property map. -/
theorem c10_witness :
    getSensorMaxMin [] = (127, -128) ∧
    sdrAssemblerMaxMin [] = (128, -127) ∧
    getSensorMaxMin [] ≠ sdrAssemblerMaxMin [] :=
  c10_default_range_mismatch [] rfl rfl

/-- Claim C2: the Get SDR reservation gate.  With collaborators that
never themselves produce the invalid-reservation code, an offset-0 call
is never rejected with invalid-reservation, whatever the reservation
state; an offset≠0 call with no reservation ever issued or a mismatched
reservation ID fails with invalid-reservation and returns no record
bytes. -/
theorem c2_reservation_gate (env : SdrEnv)
    (hfruCount : env.fruCountRes ≠ Except.error CC.invalidReservationId)
    (hfruData : ∀ i, env.fruData i ≠ Except.error CC.invalidReservationId) :
    (∀ reservationID recordID bytesToRead,
      (ipmiStorageGetSDR env reservationID recordID 0 bytesToRead).1 ≠
        CC.invalidReservationId) ∧
    (∀ reservationID recordID offset bytesToRead, offset ≠ 0 →
      (env.sdrReservationID = 0 ∨ reservationID ≠ env.sdrReservationID) →
      ipmiStorageGetSDR env reservationID recordID offset bytesToRead =
        (CC.invalidReservationId, none)) := by
  constructor
  · intro resID recID btr
    unfold ipmiStorageGetSDR
    rw [if_neg (by simp)]
    rcases htr : (if env.sensorTree.isEmpty = true then env.refetchTree
        else some env.sensorTree) with _ | tree
    · simp
    · rcases hfr : env.fruCountRes with st | fc
      · show st ≠ CC.invalidReservationId
        intro hc
        rw [hc] at hfr
        exact hfruCount hfr
      · show (getSDRResolved env tree fc recID 0 btr).1 ≠
          CC.invalidReservationId
        unfold getSDRResolved
        simp only []
        repeat' split
        all_goals first
          | exact getSDRBody_cc env tree fc _ _ 0 btr hfruData
          | simp
  · intro resID recID offset btr hoff hres
    unfold ipmiStorageGetSDR
    rw [if_pos ⟨hres, hoff⟩]

/-- Claim C2 witness: with reservation counter 5 and supplied ID 7, an
offset-0 read is not rejected for reservation reasons while an offset-3
read fails with invalid-reservation and no bytes. -/
theorem c2_witness :
    (ipmiStorageGetSDR c2Env 7 0 0 4).1 ≠ CC.invalidReservationId ∧
    ipmiStorageGetSDR c2Env 7 0 3 4 = (CC.invalidReservationId, none) :=
  ⟨(c2_reservation_gate c2Env (fun h => Except.noConfusion h)
      (fun i h => Except.noConfusion h)).1 7 0 4,
   (c2_reservation_gate c2Env (fun h => Except.noConfusion h)
      (fun i h => Except.noConfusion h)).2 7 0 3 4 (by decide)
     (Or.inr (by decide))⟩

/-- Claim C6 (code bug): at offset 100 with 10 bytes requested, a
live-sensor Get SDR call still succeeds, but the clamped `bytesToRead`
computed by the source's `sizeof(record) - offset` (a `size_t`
subtraction truncated to `uint8_t`) is 220, so the served byte window
`[100, 320)` extends far beyond the 64-byte record — the window is not
clamped inside the record as the claim states. -/
theorem c6_full_record_window_overrun :
    (ipmiStorageGetSDR c6Env 1 0 100 10).1 = CC.ok ∧
    clampedBytesToRead fullRecordSize 100 10 = 220 ∧
    fullRecordSize < 100 + clampedBytesToRead fullRecordSize 100 10 := by
  refine ⟨by decide, by decide, by decide⟩

/-- Claim C7: with a non-empty record space that fits below the
sentinel, a Get SDR call for record `0xFFFF` returns exactly what the
call for the literal last index returns, every payload it returns
carries `nextRecordId = 0xFFFF`, and any other record ID beyond the
last index fails with invalid-field (when the reservation gate lets the
request through). -/
theorem c7_sentinel_is_last_record (env : SdrEnv) (fc : Nat)
    (htree : env.sensorTree ≠ [])
    (hfru : env.fruCountRes = Except.ok fc)
    (hlast : env.sensorTree.length + fc - 1 < 0xFFFF) :
    (∀ reservationID offset bytesToRead,
      ipmiStorageGetSDR env reservationID 0xFFFF offset bytesToRead =
        ipmiStorageGetSDR env reservationID
          (env.sensorTree.length + fc - 1) offset bytesToRead) ∧
    (∀ reservationID offset bytesToRead nid pl,
      (ipmiStorageGetSDR env reservationID 0xFFFF offset bytesToRead).2 =
        some (nid, pl) → nid = 0xFFFF) ∧
    (∀ reservationID rid offset bytesToRead,
      env.sensorTree.length + fc - 1 < rid → rid ≠ 0xFFFF →
      (offset = 0 ∨
        (env.sdrReservationID ≠ 0 ∧ reservationID = env.sdrReservationID)) →
      ipmiStorageGetSDR env reservationID rid offset bytesToRead =
        (CC.invalidFieldRequest, none)) := by
  have hne : env.sensorTree.isEmpty = false := by
    cases henv : env.sensorTree with
    | nil => exact absurd henv htree
    | cons a l => rfl
  have h0 : 0 < env.sensorTree.length + fc := by
    have := List.length_pos.mpr htree
    omega
  have hlr : lastRecordOf env.sensorTree.length fc =
      env.sensorTree.length + fc - 1 :=
    lastRecordOf_pos _ _ h0 (by rw [pow64]; omega)
  have hmod : (env.sensorTree.length + fc - 1) % 65536 =
      env.sensorTree.length + fc - 1 := Nat.mod_eq_of_lt (by omega)
  refine ⟨?_, ?_, ?_⟩
  · intro resID offset btr
    by_cases hguard : (env.sdrReservationID = 0 ∨
        resID ≠ env.sdrReservationID) ∧ offset ≠ 0
    · unfold ipmiStorageGetSDR
      rw [if_pos hguard, if_pos hguard]
    · rw [getSDR_eq_resolved env fc _ _ _ _ hne hfru hguard,
        getSDR_eq_resolved env fc _ _ _ _ hne hfru hguard]
      unfold getSDRResolved
      have hx : ¬ env.sensorTree.length + fc - 1 = 65535 := by omega
      simp [hlr, hmod, hx]
  · intro resID offset btr nid pl h
    by_cases hguard : (env.sdrReservationID = 0 ∨
        resID ≠ env.sdrReservationID) ∧ offset ≠ 0
    · unfold ipmiStorageGetSDR at h
      rw [if_pos hguard] at h
      cases h
    · rw [getSDR_eq_resolved env fc _ _ _ _ hne hfru hguard] at h
      unfold getSDRResolved at h
      simp [hlr, hmod] at h
      exact getSDRBody_next env env.sensorTree fc _ _ offset btr nid pl h
  · intro resID rid offset btr hgt hneq hpass
    have hguard : ¬ ((env.sdrReservationID = 0 ∨
        resID ≠ env.sdrReservationID) ∧ offset ≠ 0) := by
      rcases hpass with h | ⟨h1, h2⟩
      · exact fun hc => hc.2 h
      · rintro ⟨hz | hne2, _⟩
        · exact h1 hz
        · exact hne2 h2
    rw [getSDR_eq_resolved env fc _ _ _ _ hne hfru hguard]
    unfold getSDRResolved
    simp only [hlr]
    rw [if_neg hneq, if_pos hgt]

/-- Claim C7 witness: one live sensor and one FRU record; the sentinel
call equals the call for the last index 1, and record ID 2 is
invalid-field. -/
theorem c7_witness :
    ipmiStorageGetSDR c7Env 0 0xFFFF 0 5 =
      ipmiStorageGetSDR c7Env 0 (c7Env.sensorTree.length + 1 - 1) 0 5 ∧
    ipmiStorageGetSDR c7Env 0 2 0 5 = (CC.invalidFieldRequest, none) :=
  ⟨(c7_sentinel_is_last_record c7Env 1 (by decide) rfl (by decide)).1 0 0 5,
   (c7_sentinel_is_last_record c7Env 1 (by decide) rfl (by decide)).2.2 0 2 0 5
     (by decide) (by decide) (Or.inl rfl)⟩

end IpmiModel
